import Mathlib

/-!
Shallow embedding of `src/csv_parse.py` (USDA nutrition CSV pipeline).

Modelling conventions:
* Python floats are idealised as exact rationals (`ℚ`); the sentinel
  `-1.0` is `(-1 : ℚ)`, the factors `0.001` and `1e-6` are `1/1000`
  and `1/1000000`.
* Dataframes are lists of records; `merge` (inner join), `pivot`,
  `reindex`/`fillna`, `drop_duplicates` and the sparsity loop are
  explicit list functions mirroring the pandas calls in the source.
* A nullable CSV cell is an `Option`; `pd.notna` is `Option.isSome`.
* The portion `amount` field is modelled as an integer, rendered by
  decimal notation exactly as Python renders an `int` in an f-string.
* Row order inside intermediate frames is preserved as in the source;
  the final cosmetic `sort_values` by description (which no claim
  touches) is elided, as are the category/brand left-joins that only
  decorate the description column.
-/

/- Batteries marks the `Rat` arithmetic operations `@[irreducible]`;
re-open them so that concrete pipeline runs can be settled by `decide`. -/
unseal Rat.mul Rat.inv Rat.ofScientific

namespace CsvParse

/-! ### Python string primitives -/

/-- Python `\s` (ASCII whitespace classes used by `str.strip` and `re`). -/
def pyIsSpace (c : Char) : Bool :=
  c = ' ' || c = '\t' || c = '\n' || c = '\r' || c = '\x0b' || c = '\x0c'

/-- Python `str.strip()`: remove leading and trailing whitespace. -/
def pyStrip (s : String) : String :=
  String.mk (((s.data.dropWhile pyIsSpace).reverse.dropWhile pyIsSpace).reverse)

/-- Python `str.lower()` on ASCII text. -/
def pyLower (s : String) : String :=
  String.mk (s.data.map Char.toLower)

/-! ### `re.split(r'\s*,\s*|\s+and\s+|\s*[\(\)]\s*', s)` (line 18)

The pattern is an ordered alternation; each alternative is a maximal
run of whitespace around a mandatory token (`,`, the word `and`, or a
parenthesis).  Because whitespace is disjoint from every mandatory
token, the backtracking regex engine's behaviour coincides with
maximal-munch: consume all whitespace, then check the token, then
consume all trailing whitespace (at least one on each side for the
`and` alternative).  `matchSep l` returns the remainder after a
separator match starting at the head of `l`, if any. -/
def matchSep (l : List Char) : Option (List Char) :=
  match l.dropWhile pyIsSpace with
  | ',' :: r => some (r.dropWhile pyIsSpace)
  | 'a' :: 'n' :: 'd' :: r =>
      if l.takeWhile pyIsSpace ≠ [] ∧ r.takeWhile pyIsSpace ≠ [] then
        some (r.dropWhile pyIsSpace)
      else none
  | '(' :: r => some (r.dropWhile pyIsSpace)
  | ')' :: r => some (r.dropWhile pyIsSpace)
  | _ => none

theorem length_dropWhile_le' (p : Char → Bool) (l : List Char) :
    (l.dropWhile p).length ≤ l.length :=
  (List.dropWhile_sublist p).length_le

theorem matchSep_length {l rest : List Char} (h : matchSep l = some rest) :
    rest.length < l.length := by
  have hdw : (l.dropWhile pyIsSpace).length ≤ l.length :=
    length_dropWhile_le' pyIsSpace l
  unfold matchSep at h
  split at h
  · next r heq =>
      obtain rfl : r.dropWhile pyIsSpace = rest := by injection h
      have h1 : (r.dropWhile pyIsSpace).length ≤ r.length :=
        length_dropWhile_le' pyIsSpace r
      rw [heq] at hdw; simp at hdw; omega
  · next r heq =>
      split at h
      · obtain rfl : r.dropWhile pyIsSpace = rest := by injection h
        have h1 : (r.dropWhile pyIsSpace).length ≤ r.length :=
          length_dropWhile_le' pyIsSpace r
        rw [heq] at hdw; simp at hdw; omega
      · exact absurd h (by simp)
  · next r heq =>
      obtain rfl : r.dropWhile pyIsSpace = rest := by injection h
      have h1 : (r.dropWhile pyIsSpace).length ≤ r.length :=
        length_dropWhile_le' pyIsSpace r
      rw [heq] at hdw; simp at hdw; omega
  · next r heq =>
      obtain rfl : r.dropWhile pyIsSpace = rest := by injection h
      have h1 : (r.dropWhile pyIsSpace).length ≤ r.length :=
        length_dropWhile_le' pyIsSpace r
      rw [heq] at hdw; simp at hdw; omega
  · exact absurd h (by simp)

/-- regex-split scanner: at each position try `matchSep`; on a match emit
the accumulated fragment and restart after the separator, otherwise
shift one character into the current fragment.  Structural recursion on
a fuel counter so the kernel can evaluate it; by `matchSep_length`
every step strictly shrinks the input, so fuel `l.length + 1` is never
exhausted and the fuel-0 fallback is unreachable. -/
def reSplitAux : Nat → List Char → List Char → List String
  | 0, l, acc => [String.mk (acc.reverse ++ l)]
  | fuel + 1, l, acc =>
    match matchSep l with
    | some rest => String.mk acc.reverse :: reSplitAux fuel rest []
    | none =>
      match l with
      | [] => [String.mk acc.reverse]
      | c :: cs => reSplitAux fuel cs (c :: acc)

def reSplit (l : List Char) : List String := reSplitAux (l.length + 1) l []

/-- `process_ingredients` (lines 6–21): lowercase, regex-split, strip each
fragment, drop empties.  A non-string/empty input returns `[]`. -/
def process_ingredients (s : String) : List String :=
  if s = "" then []
  else
    ((reSplit ((pyLower s).data)).map pyStrip).filter (fun t => t ≠ "")

/-! ### `create_brand_prefix` (lines 138–146)

Python truthiness of a (fillna-cleaned) string column is "non-empty",
so `if row['brand_name'] and row['brand_name'] != row['brand_owner']`
becomes the first test below. -/
def create_brand_prefix (brand_owner brand_name : String) : String :=
  if brand_name ≠ "" ∧ brand_name ≠ brand_owner then
    brand_owner ++ " - " ++ brand_name ++ ": "
  else if brand_owner ≠ "" then
    brand_owner ++ ": "
  else
    ""

/-! ### Unit normalisation (lines 48–53 and 87–89) -/

/-- `UNIT_TO_GRAM_FACTOR` (lines 48–53), as the partial map realised by
`Series.map`: keys are the exact strings 'G', 'MG', 'UG'. -/
def UNIT_TO_GRAM_FACTOR (u : String) : Option ℚ :=
  if u = "G" then some 1
  else if u = "MG" then some (1 / 1000)
  else if u = "UG" then some (1 / 1000000)
  else none

/-- line 87: `map(UNIT_TO_GRAM_FACTOR).fillna(1.0)`. -/
def conversion_factor (u : String) : ℚ :=
  (UNIT_TO_GRAM_FACTOR u).getD 1

/-- line 88: `'G' if x in UNIT_TO_GRAM_FACTOR else x`. -/
def final_unit (u : String) : String :=
  if (UNIT_TO_GRAM_FACTOR u).isSome then "G" else u

/-- One row of `nutrient.csv`. -/
structure NutrientRow where
  id : Nat
  name : String
  unit_name : String
deriving DecidableEq

/-- line 89: `df_nutrient['name'] + ' (' + df_nutrient['final_unit'] + ')'`. -/
def column_name (n : NutrientRow) : String :=
  n.name ++ " (" ++ final_unit n.unit_name ++ ")"

/-- `Series.to_dict` lookup (lines 91–92): with a duplicated key the last
row wins, hence the search over the reversed list. -/
def dictLookup {α : Type} (l : List (Nat × α)) (k : Nat) : Option α :=
  (l.reverse.find? (fun p => decide (p.1 = k))).map (fun p => p.2)

def id_to_column (ns : List NutrientRow) (i : Nat) : Option String :=
  dictLookup (ns.map (fun n => (n.id, column_name n))) i

def id_to_converter (ns : List NutrientRow) (i : Nat) : Option ℚ :=
  dictLookup (ns.map (fun n => (n.id, conversion_factor n.unit_name))) i

/-! ### Generic list helpers mirroring pandas operations -/

/-- insertion step for `sorted(...)`. -/
def insortBy {α : Type} (le : α → α → Bool) (a : α) : List α → List α
  | [] => [a]
  | b :: l => if le a b then a :: b :: l else b :: insortBy le a l

/-- `sorted(...)` — any correct comparison sort; pandas/python sorting
is modelled only up to the resulting order. -/
def sortBy {α : Type} (le : α → α → Bool) (l : List α) : List α :=
  l.foldr (insortBy le) []

/-- `drop_duplicates(keep='first')` / `Series.unique()` keyed by `key`;
fuel-structural so the kernel can evaluate it (each step removes the
head, so `l.length` fuel always suffices). -/
def dropDupByAux {α β : Type} [DecidableEq β] (key : α → β) :
    Nat → List α → List α
  | 0, l => l
  | fuel + 1, l =>
      match l with
      | [] => []
      | a :: t =>
          a :: dropDupByAux key fuel (t.filter (fun b => decide (key b ≠ key a)))

def dropDupBy {α β : Type} [DecidableEq β] (key : α → β) (l : List α) : List α :=
  dropDupByAux key l.length l

/-- Code-point lexicographic order on character lists — how Python
`sorted` compares strings.  (Core's `String.ltb` is not
kernel-reducible, so the comparison is spelled out.) -/
def lexLe : List Char → List Char → Bool
  | [], _ => true
  | _ :: _, [] => false
  | a :: as, b :: bs =>
      if a.toNat < b.toNat then true
      else if b.toNat < a.toNat then false
      else lexLe as bs

def strLe (a b : String) : Bool := lexLe a.data b.data

/-- line 94: sorted deduplicated global column universe. -/
def all_nutrient_columns (ns : List NutrientRow) : List String :=
  sortBy strLe (dropDupBy id (ns.map column_name))

/-! ### Input tables (post-load state of section 1 of the source) -/

/-- One row of `food.csv` (columns the pipeline reads). -/
structure FoodRow where
  fdc_id : Nat
  description : String
  data_type : String
deriving DecidableEq

/-- One row of `food_nutrient.csv`. -/
structure FNRow where
  fdc_id : Nat
  nutrient_id : Nat
  amount : ℚ
deriving DecidableEq

/-- One row of `food_portion.csv` (columns the pipeline reads). -/
structure PortionRow where
  fdc_id : Nat
  measure_unit_id : Nat
  gram_weight : Option ℚ
  portion_description : Option String
  amount : Int
deriving DecidableEq

/-- One row of `measure_unit.csv`. -/
structure MeasureUnitRow where
  id : Nat
  name : String
deriving DecidableEq

/-- The loaded required tables.  `food_category.csv` and
`branded_food.csv` only decorate the description/category/ingredients
columns, which no claim inspects, so they are not carried here. -/
structure InputTables where
  df_food : List FoodRow
  df_nutrient : List NutrientRow
  df_food_nutrient : List FNRow
  df_portion : List PortionRow
  df_measure_unit : List MeasureUnitRow
deriving DecidableEq

/-! ### Stages 3–5 of `create_nutrition_csvs_final` -/

/-- line 46. -/
def VALID_FOOD_TYPES : List String :=
  ["foundation_food", "sr_legacy_food", "survey_fndds_food", "branded_food"]

/-- line 102: `df_food[df_food['data_type'].isin(VALID_FOOD_TYPES)]`. -/
def df_food_filtered (inp : InputTables) : List FoodRow :=
  inp.df_food.filter (fun f => decide (f.data_type ∈ VALID_FOOD_TYPES))

/-- line 173: `set(df_food_filtered['fdc_id'])`, kept as a list; it is
only ever used through membership tests. -/
def all_valid_fdc_ids (inp : InputTables) : List Nat :=
  (df_food_filtered inp).map (fun f => f.fdc_id)

/-- line 181. -/
def df_fn_filtered (inp : InputTables) : List FNRow :=
  inp.df_food_nutrient.filter (fun r => decide (r.fdc_id ∈ all_valid_fdc_ids inp))

/-- lines 182–191: standardised amounts, composite column names, and the
first-seen dedup on (fdc_id, column_name).  A measurement row whose
`nutrient_id` has no row in `nutrient.csv` gets a NaN column label in
pandas; the resulting NaN-labelled pivot column lies outside the global
column universe that the frame is immediately reindexed to, so such
rows are dropped here. -/
def df_fn_pivot_ready (inp : InputTables) : List (Nat × String × ℚ) :=
  dropDupBy (fun r => (r.1, r.2.1))
    ((df_fn_filtered inp).filterMap (fun r =>
      (id_to_column inp.df_nutrient r.nutrient_id).map (fun c =>
        (r.fdc_id, c, r.amount * ((id_to_converter inp.df_nutrient r.nutrient_id).getD 1)))))

/-- the row index of the pivoted frame (line 197): the distinct food ids
occurring in the dedup'd measurement data, in ascending order. -/
def wideIndex (inp : InputTables) : List Nat :=
  sortBy (fun a b => decide (a ≤ b))
    (dropDupBy id ((df_fn_pivot_ready inp).map (fun r => r.1)))

/-- lines 197–204: the cell of `df_wide_all_cols` at (fid, col), for any
fid in `wideIndex` and col in the global column universe: the (unique,
first-seen) standardised measurement if one exists, else the sentinel
`-1.0` put there by `reindex(fill_value=-1.0)` / `fillna(-1.0)`. -/
def df_wide_value (inp : InputTables) (fid : Nat) (col : String) : ℚ :=
  match (df_fn_pivot_ready inp).find?
      (fun r => decide (r.1 = fid) && decide (r.2.1 = col)) with
  | some r => r.2.2
  | none => -1

/-- line 207: `total_foods = len(df_wide_all_cols)`. -/
def total_foods (inp : InputTables) : Nat :=
  (wideIndex inp).length

/-- line 212: `(df_wide_all_cols[col] == -1.0).sum()`. -/
def missing_count (inp : InputTables) (col : String) : Nat :=
  ((wideIndex inp).filter (fun f => decide (df_wide_value inp f col = -1))).length

/-- lines 208–214: `missing_count > total_foods / 2.0` collected in
column-universe order. -/
def columns_to_drop (inp : InputTables) : List String :=
  (all_nutrient_columns inp.df_nutrient).filter
    (fun c => decide ((total_foods inp : ℚ) / 2 < (missing_count inp c : ℚ)))

/-- lines 216–223. -/
def final_nutrient_columns (inp : InputTables) : List String :=
  if columns_to_drop inp = [] then all_nutrient_columns inp.df_nutrient
  else (all_nutrient_columns inp.df_nutrient).filter
    (fun c => decide (c ∉ columns_to_drop inp))

/-- lines 232–235: the food ids of the rows of `foods_per_100g` — the
inner merge of `df_food_filtered` with the wide frame on `fdc_id`, in
left-major order (the final cosmetic sort by description is elided). -/
def df_100g_ids (inp : InputTables) : List Nat :=
  ((df_food_filtered inp).filter (fun f => decide (f.fdc_id ∈ wideIndex inp))).map
    (fun f => f.fdc_id)

/-- lines 252–256: valid portions — valid food id and a present,
strictly positive gram weight. -/
def df_portion_filtered (inp : InputTables) : List PortionRow :=
  inp.df_portion.filter (fun p =>
    decide (p.fdc_id ∈ all_valid_fdc_ids inp) &&
    (match p.gram_weight with
     | some w => decide (0 < w)
     | none => false))

/-- lines 265–269: the portion's own text when present and non-blank,
else the f-string `f"{amount} {name}"` (`amount` is the portion's
amount, `name` the measure unit's name). -/
def serving_description (portion_description : Option String) (amount : Int)
    (unit_name : String) : String :=
  match portion_description with
  | some d => if pyStrip d ≠ "" then d else toString amount ++ " " ++ unit_name
  | none => toString amount ++ " " ++ unit_name

/-- One row of `df_servings_base` (lines 271–273). -/
structure ServingRow where
  fdc_id : Nat
  serving_description : String
  serving_size_g : ℚ
deriving DecidableEq

/-- lines 263–273: inner merge with `measure_unit` (unique unit ids
assumed, as in the USDA schema), serving description synthesis, rename
of gram_weight, and full-row first-seen dedup. -/
def df_servings_base (inp : InputTables) : List ServingRow :=
  dropDupBy id ((df_portion_filtered inp).filterMap (fun p =>
    (inp.df_measure_unit.find? (fun m => decide (m.id = p.measure_unit_id))).map
      (fun m =>
        { fdc_id := p.fdc_id
          serving_description := serving_description p.portion_description p.amount m.name
          serving_size_g := p.gram_weight.getD 0 })))

/-- line 290: the scaling lambda
`row[col] * (row['serving_size_g'] / 100.0) if row[col] != -1.0 else -1.0`. -/
def scale_serving (v s : ℚ) : ℚ :=
  if v ≠ -1 then v * (s / 100) else -1

/-- lines 278–281: rows of `df_per_serving` (inner merge of the serving
base with the wide frame on fdc_id). -/
def df_per_serving (inp : InputTables) : List ServingRow :=
  (df_servings_base inp).filter (fun s => decide (s.fdc_id ∈ wideIndex inp))

/-- lines 286–292 applied to lines 278–281: the nutrient cell of
`df_per_serving` for a serving of food `fid` with `serving_size_g = s`. -/
def per_serving_value (inp : InputTables) (fid : Nat) (col : String) (s : ℚ) : ℚ :=
  scale_serving (df_wide_value inp fid col) s

/-- lines 295–298: inner merge of `df_food_filtered` with
`df_per_serving` on fdc_id, left-major order (final sort elided). -/
def per_serving_final_rows (inp : InputTables) : List ServingRow :=
  (df_food_filtered inp).flatMap (fun f =>
    (df_per_serving inp).filter (fun s => decide (s.fdc_id = f.fdc_id)))

/-- What a successful run writes: the per-100g table (identified by its
row ids; nutrient cells are `df_wide_value`) and, optionally, the
per-serving table (nutrient cells are `per_serving_value`). -/
structure RunOut where
  per100g_ids : List Nat
  perServing : Option (List ServingRow)
deriving DecidableEq

/-- The post-load control flow of `create_nutrition_csvs_final`
(lines 173–311): `none` models the early error return at lines 175–177
(no output written); `some` models a run that reaches "All done!",
with `perServing = none` when line 258's empty check skipped the
second file. -/
def create_nutrition_csvs_final (inp : InputTables) : Option RunOut :=
  if all_valid_fdc_ids inp = [] then none
  else some
    { per100g_ids := df_100g_ids inp
      perServing :=
        if df_portion_filtered inp = [] then none
        else some (per_serving_final_rows inp) }

/-! ### Concrete input instances used by witnesses and counterexamples -/

/-- Two valid foods; only food 1 is measured (Iron, 500 mg); food 1 has
one 50 g cup portion.  Zinc is in the nutrient table but never
measured, so its column is all-sentinel. -/
def inputA : InputTables :=
  { df_food :=
      [{ fdc_id := 1, description := "apple", data_type := "foundation_food" },
       { fdc_id := 2, description := "bread", data_type := "branded_food" }]
    df_nutrient :=
      [{ id := 10, name := "Iron", unit_name := "MG" },
       { id := 11, name := "Zinc", unit_name := "G" }]
    df_food_nutrient := [{ fdc_id := 1, nutrient_id := 10, amount := 500 }]
    df_portion :=
      [{ fdc_id := 1, measure_unit_id := 7, gram_weight := some 50,
         portion_description := none, amount := 1 }]
    df_measure_unit := [{ id := 7, name := "cup" }] }

/-- One measured food; the only portion row belongs to an invalid food
id, so the valid-portion restriction leaves nothing. -/
def inputB : InputTables :=
  { df_food := [{ fdc_id := 1, description := "apple", data_type := "foundation_food" }]
    df_nutrient := [{ id := 10, name := "Iron", unit_name := "MG" }]
    df_food_nutrient := [{ fdc_id := 1, nutrient_id := 10, amount := 500 }]
    df_portion :=
      [{ fdc_id := 2, measure_unit_id := 7, gram_weight := some 50,
         portion_description := none, amount := 1 }]
    df_measure_unit := [{ id := 7, name := "cup" }] }

/-- Four valid foods but only foods 1 and 2 have any measurement (both
of nutrient A); nutrient B is never measured.  The wide frame has two
rows, so B is missing in 2 of 2 rows and is dropped (2 > 2/2.0), even
though only 2 of the 4 filtered foods carry a sentinel B value. -/
def cex2 : InputTables :=
  { df_food :=
      [{ fdc_id := 1, description := "f1", data_type := "foundation_food" },
       { fdc_id := 2, description := "f2", data_type := "foundation_food" },
       { fdc_id := 3, description := "f3", data_type := "foundation_food" },
       { fdc_id := 4, description := "f4", data_type := "foundation_food" }]
    df_nutrient :=
      [{ id := 1, name := "A", unit_name := "G" },
       { id := 2, name := "B", unit_name := "G" }]
    df_food_nutrient :=
      [{ fdc_id := 1, nutrient_id := 1, amount := 5 },
       { fdc_id := 2, nutrient_id := 1, amount := 6 }]
    df_portion := []
    df_measure_unit := [] }

/-! ### Structural lemmas about the list helpers -/

theorem mem_insortBy {α : Type} (le : α → α → Bool) (a x : α) (l : List α) :
    x ∈ insortBy le a l ↔ x = a ∨ x ∈ l := by
  induction l with
  | nil => simp [insortBy]
  | cons b t ih =>
      simp only [insortBy]
      split
      · simp [or_comm, or_assoc, or_left_comm]
      · simp [ih, or_comm, or_assoc, or_left_comm]

theorem mem_sortBy {α : Type} (le : α → α → Bool) (x : α) (l : List α) :
    x ∈ sortBy le l ↔ x ∈ l := by
  induction l with
  | nil => simp [sortBy]
  | cons b t ih =>
      simp only [sortBy, List.foldr] at ih ⊢
      rw [mem_insortBy, ih, List.mem_cons]

theorem mem_dropDupByAux {α β : Type} [DecidableEq β] (key : α → β)
    (fuel : Nat) (l : List α) (x : α) (h : x ∈ dropDupByAux key fuel l) :
    x ∈ l := by
  induction fuel generalizing l with
  | zero => exact h
  | succ n ih =>
      cases l with
      | nil => exact h
      | cons a t =>
          simp only [dropDupByAux, List.mem_cons] at h
          rcases h with rfl | h
          · exact List.mem_cons_self ..
          · exact List.mem_cons_of_mem _ (List.mem_of_mem_filter (ih _ h))

theorem mem_dropDupBy {α β : Type} [DecidableEq β] (key : α → β)
    (l : List α) (x : α) (h : x ∈ dropDupBy key l) : x ∈ l :=
  mem_dropDupByAux key l.length l x h

/-- Every dedup'd standardised measurement record descends from a raw
`food_nutrient.csv` row with the same food id whose nutrient maps to
the same column name. -/
theorem pivot_ready_src (inp : InputTables) (x : Nat × String × ℚ)
    (h : x ∈ df_fn_pivot_ready inp) :
    ∃ r ∈ inp.df_food_nutrient,
      r.fdc_id = x.1 ∧ id_to_column inp.df_nutrient r.nutrient_id = some x.2.1 := by
  have h1 := mem_dropDupBy _ _ _ h
  rw [List.mem_filterMap] at h1
  obtain ⟨r, hr, hmap⟩ := h1
  refine ⟨r, List.mem_of_mem_filter hr, ?_⟩
  obtain ⟨c, hc, heq⟩ := Option.map_eq_some'.mp hmap
  subst heq
  exact ⟨rfl, hc⟩

/-- Every row of the pivoted frame comes from some raw measurement of
that food. -/
theorem wideIndex_src (inp : InputTables) (f : Nat) (h : f ∈ wideIndex inp) :
    ∃ r ∈ inp.df_food_nutrient, r.fdc_id = f := by
  rw [wideIndex, mem_sortBy] at h
  have h1 := mem_dropDupBy _ _ _ h
  rw [List.mem_map] at h1
  obtain ⟨x, hx, hfx⟩ := h1
  obtain ⟨r, hr, hid, _⟩ := pivot_ready_src inp x hx
  exact ⟨r, hr, by rw [hid, hfx]⟩

/-! ### Claim theorems -/

/-- C1: a (food id, nutrient column) pair with no measurement in the
food-nutrient table has the exact sentinel value -1.0 in the wide
per-100g frame, and serving-size rescaling leaves that sentinel at
-1.0 for every serving size (it is never multiplied by
serving_size_g / 100.0). -/
theorem c1_missing_measurement_sentinel (inp : InputTables) (fid : Nat)
    (col : String)
    (_hfid : fid ∈ wideIndex inp)
    (_hcol : col ∈ all_nutrient_columns inp.df_nutrient)
    (hno : ∀ r ∈ inp.df_food_nutrient, r.fdc_id = fid →
      id_to_column inp.df_nutrient r.nutrient_id ≠ some col) :
    df_wide_value inp fid col = -1 ∧
      ∀ s : ℚ, per_serving_value inp fid col s = -1 := by
  have hfind : (df_fn_pivot_ready inp).find?
      (fun r => decide (r.1 = fid) && decide (r.2.1 = col)) = none := by
    rw [List.find?_eq_none]
    intro x hx hpx
    simp only [Bool.and_eq_true, decide_eq_true_eq] at hpx
    obtain ⟨r, hr, hid, hcolr⟩ := pivot_ready_src inp x hx
    exact hno r hr (hid.trans hpx.1) (by rw [hcolr, hpx.2])
  have hw : df_wide_value inp fid col = -1 := by
    unfold df_wide_value
    rw [hfind]
  refine ⟨hw, fun s => ?_⟩
  unfold per_serving_value
  rw [hw]
  simp [scale_serving]

/-- C1 witness: in `inputA`, food 1 has no Zinc measurement, so the
Zinc column holds -1.0 and stays -1.0 after scaling by a 50 g serving. -/
theorem c1_missing_measurement_sentinel_w :
    df_wide_value inputA 1 "Zinc (G)" = -1 ∧
      per_serving_value inputA 1 "Zinc (G)" 50 = -1 :=
  ⟨(c1_missing_measurement_sentinel inputA 1 "Zinc (G)" (by decide) (by decide)
      (by decide)).1,
   (c1_missing_measurement_sentinel inputA 1 "Zinc (G)" (by decide) (by decide)
      (by decide)).2 50⟩

/-- C2 counterexample: in `cex2` there are 4 filtered foods, the wide
frame has rows only for the 2 measured ones, and column "B (G)" is
sentinel in both of those rows.  The code drops it (2 > 2/2.0), yet
its sentinel count (2) does not exceed half the filtered-food count
(4/2), so the claimed iff — present iff sentinel fraction of filtered
foods ≤ 0.5 — fails at this input. -/
theorem c2_sparsity_claim_cex :
    ("B (G)" ∈ all_nutrient_columns cex2.df_nutrient) ∧
    ¬ (("B (G)" ∈ final_nutrient_columns cex2) ↔
        ((missing_count cex2 "B (G)" : ℚ) ≤
          ((df_food_filtered cex2).length : ℚ) / 2)) := by
  decide

/-- C2 (amended): a nutrient column of the global universe is kept in
both outputs iff its sentinel count is at most half the number of
foods that have at least one measurement (the rows of the wide frame),
rather than half the number of all filtered foods; the decision is a
function of the column alone, hence uniform across foods. -/
theorem c2_sparsity_keep_iff (inp : InputTables) (col : String)
    (hcol : col ∈ all_nutrient_columns inp.df_nutrient) :
    col ∈ final_nutrient_columns inp ↔
      ((missing_count inp col : ℚ) ≤ (total_foods inp : ℚ) / 2) := by
  have hmemdrop : col ∈ columns_to_drop inp ↔
      ((total_foods inp : ℚ) / 2 < (missing_count inp col : ℚ)) := by
    rw [columns_to_drop, List.mem_filter]
    simp [hcol]
  unfold final_nutrient_columns
  split
  · next hnil =>
      have hnotlt : ¬ ((total_foods inp : ℚ) / 2 < (missing_count inp col : ℚ)) := by
        intro hlt
        have hmem : col ∈ columns_to_drop inp := hmemdrop.mpr hlt
        rw [hnil] at hmem
        exact absurd hmem (List.not_mem_nil col)
      exact iff_of_true hcol (not_lt.mp hnotlt)
  · next hne =>
      rw [List.mem_filter]
      simp only [decide_eq_true_eq]
      constructor
      · rintro ⟨-, hnotin⟩
        exact not_lt.mp (fun hlt => hnotin (hmemdrop.mpr hlt))
      · intro hle
        exact ⟨hcol, fun hin => absurd (hmemdrop.mp hin) (not_lt.mpr hle)⟩

/-- C2 witness: the Iron column of `inputA` (0 sentinels among 1 wide
row) is kept. -/
theorem c2_sparsity_keep_iff_w :
    ("Iron (G)" ∈ final_nutrient_columns inputA) ↔
      ((missing_count inputA "Iron (G)" : ℚ) ≤ (total_foods inputA : ℚ) / 2) :=
  c2_sparsity_keep_iff inputA "Iron (G)" (by decide)

/-- C3: conversion factors are exactly 1.0 / 0.001 / 1e-6 for the unit
strings 'G' / 'MG' / 'UG'; those three units are relabelled to the
standard gram label 'G' in the composite column name, while any other
unit gets factor 1.0 and keeps its own label in "<name> (<unit>)". -/
theorem c3_unit_conversion :
    conversion_factor "G" = 1 ∧
    conversion_factor "MG" = 1 / 1000 ∧
    conversion_factor "UG" = 1 / 1000000 ∧
    (∀ n : NutrientRow,
      (n.unit_name = "G" ∨ n.unit_name = "MG" ∨ n.unit_name = "UG") →
      column_name n = n.name ++ " (" ++ "G" ++ ")") ∧
    (∀ u : String, u ∉ (["G", "MG", "UG"] : List String) →
      conversion_factor u = 1) ∧
    (∀ n : NutrientRow, n.unit_name ∉ (["G", "MG", "UG"] : List String) →
      column_name n = n.name ++ " (" ++ n.unit_name ++ ")") := by
  refine ⟨by decide, by decide, by decide, ?_, ?_, ?_⟩
  · intro n h
    rcases h with h | h | h <;>
      simp [column_name, final_unit, UNIT_TO_GRAM_FACTOR, h]
  · intro u hu
    simp only [List.mem_cons, List.not_mem_nil, or_false, not_or] at hu
    obtain ⟨h1, h2, h3⟩ := hu
    unfold conversion_factor UNIT_TO_GRAM_FACTOR
    rw [if_neg h1, if_neg h2, if_neg h3]
    rfl
  · intro n hu
    simp only [List.mem_cons, List.not_mem_nil, or_false, not_or] at hu
    obtain ⟨h1, h2, h3⟩ := hu
    unfold column_name final_unit UNIT_TO_GRAM_FACTOR
    rw [if_neg h1, if_neg h2, if_neg h3]
    rfl

/-- C3 witness: a nutrient in ounces keeps factor 1.0 and its own
label; a milligram nutrient is relabelled to grams. -/
theorem c3_unit_conversion_w :
    conversion_factor "OZ" = 1 ∧
    column_name { id := 5, name := "Fat", unit_name := "OZ" } =
      "Fat" ++ " (" ++ "OZ" ++ ")" ∧
    column_name { id := 6, name := "Iron", unit_name := "MG" } =
      "Iron" ++ " (" ++ "G" ++ ")" :=
  ⟨c3_unit_conversion.2.2.2.2.1 "OZ" (by decide),
   c3_unit_conversion.2.2.2.2.2 { id := 5, name := "Fat", unit_name := "OZ" }
     (by decide),
   c3_unit_conversion.2.2.2.1 { id := 6, name := "Iron", unit_name := "MG" }
     (Or.inr (Or.inl rfl))⟩

/-- C4 counterexample: on "Water, Sugar (Cane) and Salt" the function
does NOT return ["water", "sugar", "cane", "salt"]: the parenthesis
separator `\s*[\(\)]\s*` greedily consumes the whitespace after ')',
so the following "and" has no leading whitespace left and the
`\s+and\s+` alternative cannot match. -/
theorem c4_ingredients_cex :
    process_ingredients "Water, Sugar (Cane) and Salt" ≠
      ["water", "sugar", "cane", "salt"] := by
  decide

/-- C4 (amended): the example input actually parses to
["water", "sugar", "cane", "and salt"] — lowercased, split on commas,
parentheses and whitespace-surrounded "and", trimmed, empties dropped,
with the caveat that a separator swallows adjacent whitespace so an
immediately following "and" is not re-split. -/
theorem c4_ingredients_amended :
    process_ingredients "Water, Sugar (Cane) and Salt" =
      ["water", "sugar", "cane", "and salt"] := by
  decide

/-- C5: the brand prefix is "<owner> - <name>: " when the brand name is
non-empty and differs from the owner, "<owner>: " when it is empty or
equal to the owner and the owner is non-empty, and "" when both are
empty; in particular the three example pairs of the claim. -/
theorem c5_brand_prefix_rule :
    (∀ owner nm : String, nm ≠ "" → nm ≠ owner →
      create_brand_prefix owner nm = owner ++ " - " ++ nm ++ ": ") ∧
    (∀ owner nm : String, (nm = "" ∨ nm = owner) → owner ≠ "" →
      create_brand_prefix owner nm = owner ++ ": ") ∧
    create_brand_prefix "" "" = "" ∧
    create_brand_prefix "Acme" "Acme" = "Acme: " ∧
    create_brand_prefix "Acme" "Zesty" = "Acme - Zesty: " := by
  refine ⟨?_, ?_, by decide, by decide, by decide⟩
  · intro owner nm h1 h2
    unfold create_brand_prefix
    rw [if_pos ⟨h1, h2⟩]
  · intro owner nm h ho
    have hneg : ¬ (nm ≠ "" ∧ nm ≠ owner) := by
      rcases h with h | h
      · exact fun hc => hc.1 h
      · exact fun hc => hc.2 h
    unfold create_brand_prefix
    rw [if_neg hneg, if_pos ho]

/-- C5 witness: the two branded cases instantiated. -/
theorem c5_brand_prefix_rule_w :
    create_brand_prefix "Acme" "Zesty" = "Acme" ++ " - " ++ "Zesty" ++ ": " ∧
    create_brand_prefix "Acme" "Acme" = "Acme" ++ ": " :=
  ⟨c5_brand_prefix_rule.1 "Acme" "Zesty" (by decide) (by decide),
   c5_brand_prefix_rule.2.1 "Acme" "Acme" (Or.inr rfl) (by decide)⟩

/-- C6: the serving description is the portion's own text when present
and non-blank, else "<amount> <unit name>"; amount 1 with unit "cup"
synthesises exactly "1 cup". -/
theorem c6_serving_description_rule :
    (∀ d : String, ∀ a : Int, ∀ u : String, pyStrip d ≠ "" →
      serving_description (some d) a u = d) ∧
    (∀ d : String, ∀ a : Int, ∀ u : String, pyStrip d = "" →
      serving_description (some d) a u = toString a ++ " " ++ u) ∧
    (∀ a : Int, ∀ u : String,
      serving_description none a u = toString a ++ " " ++ u) ∧
    serving_description none 1 "cup" = "1 cup" := by
  refine ⟨?_, ?_, fun a u => rfl, by decide⟩
  · intro d a u h
    simp only [serving_description]
    rw [if_pos h]
  · intro d a u h
    simp only [serving_description]
    rw [if_neg (by simp [h])]

/-- C6 witness: a non-blank description is kept; a missing one is
synthesised. -/
theorem c6_serving_description_rule_w :
    serving_description (some "1 slice") 3 "piece" = "1 slice" ∧
    serving_description none 2 "tbsp" = toString (2 : Int) ++ " " ++ "tbsp" :=
  ⟨c6_serving_description_rule.1 "1 slice" 3 "piece" (by decide),
   c6_serving_description_rule.2.2.1 2 "tbsp"⟩

/-- C7: for a non-sentinel 100g-normalised value, a serving of exactly
100.0 g reproduces the value exactly (the factor 100/100 is the
identity). -/
theorem c7_scaling_identity (inp : InputTables) (fid : Nat) (col : String)
    (_hcol : col ∈ final_nutrient_columns inp)
    (h : df_wide_value inp fid col ≠ -1) :
    per_serving_value inp fid col 100 = df_wide_value inp fid col := by
  unfold per_serving_value scale_serving
  rw [if_pos h]
  norm_num

/-- C7 witness: food 1's Iron value in `inputA` (a retained column) is
unchanged by a 100 g serving. -/
theorem c7_scaling_identity_w :
    per_serving_value inputA 1 "Iron (G)" 100 = df_wide_value inputA 1 "Iron (G)" :=
  c7_scaling_identity inputA 1 "Iron (G)" (by decide) (by decide)

/-- C8: when the valid-food set is non-empty but no valid portion row
remains, the run succeeds (`some`), still produces the per-100g table,
and produces no per-serving table. -/
theorem c8_empty_portions_success (inp : InputTables)
    (h1 : all_valid_fdc_ids inp ≠ [])
    (h2 : df_portion_filtered inp = []) :
    create_nutrition_csvs_final inp =
      some { per100g_ids := df_100g_ids inp, perServing := none } := by
  unfold create_nutrition_csvs_final
  rw [if_neg h1, if_pos h2]

/-- C8 witness: `inputB`'s only portion row belongs to an invalid food,
so the run writes only the per-100g table and succeeds. -/
theorem c8_empty_portions_success_w :
    create_nutrition_csvs_final inputB =
      some { per100g_ids := df_100g_ids inputB, perServing := none } :=
  c8_empty_portions_success inputB (by decide) (by decide)

/-- C9: a food that passes the data_type filter but has no row at all
in the food-nutrient table appears in neither output: the pivot has no
row for it and both description joins are inner joins. -/
theorem c9_unmeasured_food_absent (inp : InputTables) (f : Nat)
    (_hf : f ∈ all_valid_fdc_ids inp)
    (h : ∀ r ∈ inp.df_food_nutrient, r.fdc_id ≠ f) :
    f ∉ df_100g_ids inp ∧
      f ∉ (per_serving_final_rows inp).map (fun s => s.fdc_id) := by
  have hw : f ∉ wideIndex inp := by
    intro hmem
    obtain ⟨r, hr, hid⟩ := wideIndex_src inp f hmem
    exact h r hr hid
  constructor
  · intro hmem
    rw [df_100g_ids, List.mem_map] at hmem
    obtain ⟨g, hg, hid⟩ := hmem
    have hp := List.of_mem_filter hg
    rw [decide_eq_true_eq] at hp
    exact hw (hid ▸ hp)
  · intro hmem
    rw [List.mem_map] at hmem
    obtain ⟨s, hs, hid⟩ := hmem
    rw [per_serving_final_rows, List.mem_flatMap] at hs
    obtain ⟨g, hg, hsg⟩ := hs
    have hsper : s ∈ df_per_serving inp := List.mem_of_mem_filter hsg
    rw [df_per_serving] at hsper
    have hp := List.of_mem_filter hsper
    rw [decide_eq_true_eq] at hp
    exact hw (hid ▸ hp)

/-- C9 witness: food 2 of `inputA` is a valid branded food with no
measurements; it is absent from both outputs. -/
theorem c9_unmeasured_food_absent_w :
    2 ∉ df_100g_ids inputA ∧
      2 ∉ (per_serving_final_rows inputA).map (fun s => s.fdc_id) :=
  c9_unmeasured_food_absent inputA 2 (by decide) (by decide)

/-- C10: unit lookup is an exact, case-sensitive match on 'G', 'MG',
'UG': any other spelling gets conversion factor 1.0, keeps its own
final unit, and keeps its own label inside the composite column name. -/
theorem c10_unit_lookup_case_sensitive (u : String)
    (h1 : u ≠ "G") (h2 : u ≠ "MG") (h3 : u ≠ "UG") :
    conversion_factor u = 1 ∧ final_unit u = u ∧
    ∀ n : NutrientRow, n.unit_name = u →
      column_name n = n.name ++ " (" ++ u ++ ")" := by
  have hmap : UNIT_TO_GRAM_FACTOR u = none := by
    unfold UNIT_TO_GRAM_FACTOR
    rw [if_neg h1, if_neg h2, if_neg h3]
  refine ⟨?_, ?_, ?_⟩
  · unfold conversion_factor
    rw [hmap]
    rfl
  · unfold final_unit
    rw [hmap]
    rfl
  · intro n hn
    unfold column_name final_unit
    rw [hn, hmap]
    rfl

/-- C10 witness: the lowercase spellings 'g' and 'mg' are not
converted. -/
theorem c10_unit_lookup_case_sensitive_w :
    (conversion_factor "g" = 1 ∧ final_unit "g" = "g" ∧
      column_name { id := 1, name := "Iron", unit_name := "g" } =
        "Iron" ++ " (" ++ "g" ++ ")") ∧
    conversion_factor "mg" = 1 :=
  ⟨⟨(c10_unit_lookup_case_sensitive "g" (by decide) (by decide) (by decide)).1,
    (c10_unit_lookup_case_sensitive "g" (by decide) (by decide) (by decide)).2.1,
    (c10_unit_lookup_case_sensitive "g" (by decide) (by decide) (by decide)).2.2
      { id := 1, name := "Iron", unit_name := "g" } rfl⟩,
   (c10_unit_lookup_case_sensitive "mg" (by decide) (by decide) (by decide)).1⟩

end CsvParse
